import Mathlib

/-!
Verification of the OTP-based phone authentication flow of the bolbol
marketplace backend (`bolbol/users/utils.py`, `bolbol/users/views.py`),
shallowly embedded in Lean 4.

Python strings are modelled as Lean `String` (a list of characters);
Python `str.isdigit` is modelled as ASCII `Char.isDigit`, and
`str.startswith` as an explicit character-list comparison.  The Django
cache is modelled as a map from keys to values paired with an absolute
expiry instant; `cache.get` treats an entry as absent once the current
time reaches its expiry, matching Django's local-memory backend.  The
SHA-256 hex digest used by `cache_otp` / `verify_otp` is abstracted as a
function parameter `H : String → String` (an actual digest is injective
in practice and never returns the empty string; theorems that need those
facts take them as hypotheses).  The random OTP produced by
`generate_otp` (`secrets.choice`) and the JWT pair minted by
`rest_framework_simplejwt` are external effects, passed in as
parameters.
-/

/-- Python `p.isPrefixOf`-style check: `listStarts p s` is true when the
character list `p` is an initial segment of `s` (the semantics of
`str.startswith`). -/
def listStarts : List Char → List Char → Bool
  | [], _ => true
  | _ :: _, [] => false
  | a :: as, b :: bs => if a = b then listStarts as bs else false

/-- Python `s.startswith(p)`. -/
def pyStartswith (s p : String) : Bool :=
  listStarts p.data s.data

/-- First rewrite of `format_phone_number`:
`if number.startswith("0"): number = "+994" + number[1:]`. -/
def fmtStep1 (number : String) : String :=
  if pyStartswith number "0" then "+994" ++ String.mk (number.data.drop 1) else number

/-- Second rewrite of `format_phone_number`:
`if number.startswith("994"): number = "+" + number`. -/
def fmtStep2 (number : String) : String :=
  if pyStartswith number "994" then "+" ++ number else number

/-- Third rewrite of `format_phone_number`:
`if len(number) == 9: number = "+994" + number`. -/
def fmtStep3 (number : String) : String :=
  if number.length = 9 then "+994" ++ number else number

/-- users/utils.py `format_phone_number`: strip non-digits, then apply
the three sequential `if` rewrites, each inspecting the result of the
previous one. -/
def format_phone_number (phone : String) : String :=
  fmtStep3 (fmtStep2 (fmtStep1 (String.mk (phone.data.filter fun c => c.isDigit))))

/-- Modelled from the spec: `users/constants.py` is imported by the
source but absent from `src/`, so the operator allow-list is
reconstructed from the spec, which calls it injectable,
deployment-specific configuration, names `"50"` as a valid operator
prefix and `"00"` as invalid, and fixes the country code `+994`
(Azerbaijan, whose mobile operator codes include `99`). -/
def PHONE_NUMBER_PREFIXES : List String :=
  ["10", "50", "51", "55", "60", "70", "77", "99"]

/-- users/utils.py `verify_phone_number`: re-normalize, raise
`ValueError` (modelled as `Except.error`) when the canonical length is
not 13 or when the 2-character slice `phone[4:6]` is not in the
configured allow-list, and return `None` (modelled as `.ok ()`)
otherwise.  The allow-list is a parameter because the constants module
is configuration. -/
def verify_phone_number (prefixes : List String) (phone0 : String) : Except String Unit :=
  let phone := format_phone_number phone0
  if phone.length ≠ 13 then .error "Not a valid phone number."
  else
    let pfx := String.mk ((phone.data.drop 4).take 2)
    if prefixes.contains pfx then .ok ()
    else .error "Not a valid operator."

/-- One cache slot: the stored string together with the absolute instant
at which it expires. -/
structure CacheEntry where
  value : String
  expiry : Nat

/-- The Django cache, modelled as a key-indexed partial map. -/
def Cache : Type := String → Option CacheEntry

/-- `cache.set(key, value, timeout)` at instant `now`: the entry expires
at `now + timeout`, overwriting any existing entry for that key. -/
def cacheSet (c : Cache) (key value : String) (now timeout : Nat) : Cache :=
  fun k => if k = key then some ⟨value, now + timeout⟩ else c k

/-- `cache.get(key)` at instant `now`: a stored entry is reported absent
once `now` reaches its expiry, matching Django's backend (which deletes
an entry when `exp <= time.time()`). -/
def cacheGet (c : Cache) (key : String) (now : Nat) : Option String :=
  match c key with
  | none => none
  | some e => if now < e.expiry then some e.value else none

/-- `cache.delete(key)`: unconditional, idempotent removal. -/
def cacheDelete (c : Cache) (key : String) : Cache :=
  fun k => if k = key then none else c k

/-- The empty cache. -/
def emptyCache : Cache := fun _ => none

/-- users/utils.py `cache_otp`: store the digest `H otp` under key
`"otp:" + phone` with the hard-coded 300-second expiry. -/
def cache_otp (H : String → String) (c : Cache) (now : Nat) (phone otp : String) : Cache :=
  cacheSet c ("otp:" ++ phone) (H otp) now 300

/-- users/utils.py `verify_otp`: fetch the stored digest; a missing (or
falsy, i.e. empty) value yields `False`; otherwise compare the digest of
the submitted code with the stored one (`hmac.compare_digest` is
observationally string equality). -/
def verify_otp (H : String → String) (c : Cache) (now : Nat) (phone otp_entered : String) : Bool :=
  match cacheGet c ("otp:" ++ phone) now with
  | none => false
  | some otp_hash => if otp_hash = "" then false else H otp_entered == otp_hash

/-- A row of the `User` table, restricted to the fields the OTP flow
reads or writes. -/
structure User where
  pk : Nat
  phone : String
  phone_verified : Bool

/-- The durable user store. -/
abbrev UserDb : Type := List User

/-- `User.objects.filter(phone=phone).first()` (also used for
`.exists()`): the first row with the given phone. -/
def findUser (db : UserDb) (phone : String) : Option User :=
  db.find? fun u => u.phone == phone

/-- `user.save()`: persist the updated row, identified by primary key. -/
def saveUser (db : UserDb) (u : User) : UserDb :=
  db.map fun v => if v.pk = u.pk then u else v

/-- HTTP status codes produced by the two OTP endpoints. -/
inductive HttpStatus where
  | s200
  | s400
  | s404
deriving DecidableEq

/-- Response bodies produced by the two OTP endpoints. -/
inductive Body where
  | errorMsg (s : String)
  | message (s : String)
  | loginOk (msg : String) (user_id : Nat) (access refreshTok : String)
deriving DecidableEq

/-- users/views.py `LoginAPIView.post`.  `phoneField` is
`request.data.get("phone")` (`none` when the field is absent — in that
case `format_phone_number(None)` raises `TypeError`, modelled as
`Except.error`); `otp` is the value produced by `generate_otp`'s secure
random source. -/
def loginPost (users : UserDb) (H : String → String) (c : Cache) (now : Nat)
    (phoneField : Option String) (otp : String) : Except String (HttpStatus × Body × Cache) :=
  match phoneField with
  | none => .error "TypeError: argument of type NoneType is not iterable"
  | some raw =>
    let phone := format_phone_number raw
    if phone = "" then .ok (.s400, .errorMsg "Phone number is required", c)
    else if (findUser users phone).isSome = false then
      .ok (.s404, .errorMsg "User with this phone number does not exist", c)
    else
      .ok (.s200, .message "OTP sent succesfully", cache_otp H c now phone otp)

/-- users/views.py `VerifyOTPCodeAPIView.post`.  `issue` abstracts
`RefreshToken.for_user` as a map from the user's primary key to an
`(access, refresh)` token pair.  The result carries the response
together with the cache and user table after the request. -/
def verifyPost (users : UserDb) (H : String → String) (issue : Nat → String × String)
    (c : Cache) (now : Nat) (phoneField otpField : Option String) :
    Except String (HttpStatus × Body × Cache × UserDb) :=
  match phoneField with
  | none => .error "TypeError: argument of type NoneType is not iterable"
  | some raw =>
    let phone := format_phone_number raw
    if phone = "" ∨ otpField = none ∨ otpField = some "" then
      .ok (.s400, .errorMsg "Phone number and OTP are required", c, users)
    else
      let otp := otpField.getD ""
      if verify_otp H c now phone otp = false then
        .ok (.s400, .errorMsg "Invalid or expired OTP", c, users)
      else
        let c2 := cacheDelete c ("otp:" ++ phone)
        match findUser users phone with
        | none => .ok (.s404, .errorMsg "User not found", c2, users)
        | some user =>
          let users2 :=
            if user.phone_verified then users
            else saveUser users { user with phone_verified := true }
          let tok := issue user.pk
          .ok (.s200, .loginOk "Logged in succesfully" user.pk tok.1 tok.2, c2, users2)

/-- Modelled from the spec (§3, §8): a valid 9-digit local number is
nine digits whose leading two digits form an operator code in the
configured allow-list. -/
def validLocal (prefixes : List String) (n : String) : Prop :=
  n.length = 9 ∧ (∀ c ∈ n.data, c.isDigit = true) ∧ prefixes.contains (String.mk (n.data.take 2)) = true

instance (prefixes : List String) (n : String) : Decidable (validLocal prefixes n) := by
  unfold validLocal
  infer_instance

example : format_phone_number "0501234567" = "+994501234567" := by decide
example : format_phone_number "994501234567" = "+994501234567" := by decide
example : format_phone_number "501234567" = "+994501234567" := by decide
example : format_phone_number "994123456" = "+994123456" := by decide
example : format_phone_number "" = "" := by decide

/-- The third rewrite leaves a 13-character `+994`-prefixed number
alone. -/
theorem fmtStep3_of_nine (n : String) (hn9 : n.length = 9) :
    fmtStep3 ("+994" ++ n) = "+994" ++ n := by
  have hlen : n.data.length = 9 := hn9
  have h13 : ("+994" ++ n).length = 13 := by
    show ('+' :: '9' :: '9' :: '4' :: n.data).length = 13
    rw [List.length_cons, List.length_cons, List.length_cons, List.length_cons, hlen]
  simp [fmtStep3, h13]

/-- Normalizing a 9-digit local number written with a leading `0`. -/
theorem format_zero (n : String) (hn9 : n.length = 9)
    (hd : ∀ c ∈ n.data, c.isDigit = true) :
    format_phone_number ("0" ++ n) = "+994" ++ n := by
  have hfil : ("0" ++ n).data.filter (fun c => c.isDigit) = '0' :: n.data := by
    show ('0' :: n.data).filter (fun c => c.isDigit) = '0' :: n.data
    rw [List.filter_eq_self]
    intro a ha
    rcases List.mem_cons.mp ha with h | h
    · subst h; rfl
    · exact hd a h
  have h1 : fmtStep1 (String.mk ('0' :: n.data)) = "+994" ++ n := by
    have hc : pyStartswith (String.mk ('0' :: n.data)) "0" = true := rfl
    have hmk : String.mk n.data = n := rfl
    simp [fmtStep1, hc, hmk]
  have h2 : fmtStep2 ("+994" ++ n) = "+994" ++ n := by
    have hc : pyStartswith ("+994" ++ n) "994" = false := rfl
    simp [fmtStep2, hc]
  unfold format_phone_number
  rw [hfil, h1, h2, fmtStep3_of_nine n hn9]

/-- Normalizing a 9-digit local number written with a bare `994`
country code. -/
theorem format_ninefour (n : String) (hn9 : n.length = 9)
    (hd : ∀ c ∈ n.data, c.isDigit = true) :
    format_phone_number ("994" ++ n) = "+994" ++ n := by
  have hfil : ("994" ++ n).data.filter (fun c => c.isDigit) = '9' :: '9' :: '4' :: n.data := by
    show ('9' :: '9' :: '4' :: n.data).filter (fun c => c.isDigit) = _
    rw [List.filter_eq_self]
    intro a ha
    rw [List.mem_cons, List.mem_cons, List.mem_cons] at ha
    rcases ha with h | h | h | h
    · subst h; rfl
    · subst h; rfl
    · subst h; rfl
    · exact hd a h
  have h1 : fmtStep1 (String.mk ('9' :: '9' :: '4' :: n.data)) = String.mk ('9' :: '9' :: '4' :: n.data) := by
    have hc : pyStartswith (String.mk ('9' :: '9' :: '4' :: n.data)) "0" = false := rfl
    simp [fmtStep1, hc]
  have h2 : fmtStep2 (String.mk ('9' :: '9' :: '4' :: n.data)) = "+994" ++ n := by
    have hc : pyStartswith (String.mk ('9' :: '9' :: '4' :: n.data)) "994" = true := rfl
    have hplus : "+" ++ String.mk ('9' :: '9' :: '4' :: n.data) = "+994" ++ n := rfl
    simp [fmtStep2, hc, hplus]
  unfold format_phone_number
  rw [hfil, h1, h2, fmtStep3_of_nine n hn9]

/-- Normalizing a bare 9-digit local number that starts with neither
`0` nor `994`. -/
theorem format_plain (n : String) (hn9 : n.length = 9)
    (hd : ∀ c ∈ n.data, c.isDigit = true)
    (h0 : pyStartswith n "0" = false) (h994 : pyStartswith n "994" = false) :
    format_phone_number n = "+994" ++ n := by
  have hfil : n.data.filter (fun c => c.isDigit) = n.data := List.filter_eq_self.mpr hd
  have hmk : String.mk n.data = n := rfl
  have h1 : fmtStep1 n = n := by simp [fmtStep1, h0]
  have h2 : fmtStep2 n = n := by simp [fmtStep2, h994]
  have h3 : fmtStep3 n = "+994" ++ n := by simp [fmtStep3, hn9]
  unfold format_phone_number
  rw [hfil, hmk, h1, h2, h3]

/-- Reading back the key just written returns the stored value until
its expiry. -/
theorem cacheGet_set_self (c : Cache) (key v : String) (now timeout t : Nat) :
    cacheGet (cacheSet c key v now timeout) key t =
      if t < now + timeout then some v else none := by
  unfold cacheGet cacheSet
  simp

/-- Reading back a deleted key returns nothing. -/
theorem cacheGet_delete_self (c : Cache) (key : String) (t : Nat) :
    cacheGet (cacheDelete c key) key t = none := by
  unfold cacheGet cacheDelete
  simp

/-- C2, amended: for a valid 9-digit local number that starts with
neither `0` nor `994`, the three input shapes `0`+n, `994`+n and n all
normalize to `+994`+n. -/
theorem claim_C2_normalize_agree (P : List String) (n : String) (hv : validLocal P n)
    (h0 : pyStartswith n "0" = false) (h994 : pyStartswith n "994" = false) :
    format_phone_number ("0" ++ n) = "+994" ++ n ∧
    format_phone_number ("994" ++ n) = "+994" ++ n ∧
    format_phone_number n = "+994" ++ n := by
  obtain ⟨hn9, hd, -⟩ := hv
  exact ⟨format_zero n hn9 hd, format_ninefour n hn9 hd, format_plain n hn9 hd h0 h994⟩

/-- C2, counterexample: `"994123456"` is a valid 9-digit local number
for the configured allow-list (operator code `99`), yet normalizing it
bare yields `"+994123456"`, not `"+994994123456"`: the claimed equality
`normalize(n) = "+994" + n` fails. -/
theorem claim_C2_counterexample :
    validLocal PHONE_NUMBER_PREFIXES "994123456" ∧
    format_phone_number "994123456" = "+994123456" ∧
    format_phone_number "994123456" ≠ "+994" ++ "994123456" := by
  refine ⟨by decide, by decide, by decide⟩

/-- C2, witness: the amended theorem applied to the valid local number
`"501234567"` (operator code `50`). -/
theorem claim_C2_witness :
    validLocal ["50"] "501234567" ∧
    pyStartswith "501234567" "0" = false ∧
    pyStartswith "501234567" "994" = false ∧
    (format_phone_number ("0" ++ "501234567") = "+994" ++ "501234567" ∧
     format_phone_number ("994" ++ "501234567") = "+994" ++ "501234567" ∧
     format_phone_number "501234567" = "+994" ++ "501234567") :=
  ⟨by decide, by decide, by decide,
   claim_C2_normalize_agree ["50"] "501234567" (by decide) (by decide) (by decide)⟩

/-- C6: on an already-normalized phone (a fixed point of
`format_phone_number`, i.e. a value of the spec's canonical PhoneNumber
type), `verify_phone_number` fails exactly when the length is not 13 or
the 2-character slice at offsets 4-5 is outside the configured
allow-list. -/
theorem claim_C6_validate_iff (P : List String) (phone : String)
    (hfix : format_phone_number phone = phone) :
    (verify_phone_number P phone).isOk = false ↔
      (phone.length ≠ 13 ∨ P.contains (String.mk ((phone.data.drop 4).take 2)) = false) := by
  have hval : verify_phone_number P phone =
      (if phone.length ≠ 13 then .error "Not a valid phone number."
       else if P.contains (String.mk ((phone.data.drop 4).take 2)) then .ok ()
       else .error "Not a valid operator.") := by
    unfold verify_phone_number
    rw [hfix]
  rw [hval]
  by_cases h13 : phone.length = 13
  · by_cases hc : P.contains (String.mk ((phone.data.drop 4).take 2)) = true
    · have hmem : String.mk ((phone.data.drop 4).take 2) ∈ P := by simpa using hc
      rw [if_neg (by simp [h13]), if_pos hc]
      simp [Except.isOk, Except.toBool, h13, hmem]
    · have hc2 : P.contains (String.mk ((phone.data.drop 4).take 2)) = false := by
        simpa using hc
      have hmem : String.mk ((phone.data.drop 4).take 2) ∉ P := by simpa using hc2
      rw [if_neg (by simp [h13]), if_neg (by simpa using hmem)]
      simp [Except.isOk, Except.toBool, h13, hmem]
  · rw [if_pos h13]
    simp [Except.isOk, Except.toBool, h13]

/-- C6, witness: the canonical number `"+994501234567"` with allow-list
`["50"]` validates (the failure condition is false on both sides). -/
theorem claim_C6_witness :
    format_phone_number "+994501234567" = "+994501234567" ∧
    ((verify_phone_number ["50"] "+994501234567").isOk = false ↔
      ("+994501234567".length ≠ 13 ∨
        List.contains ["50"] (String.mk (("+994501234567".data.drop 4).take 2)) = false)) :=
  ⟨by decide, claim_C6_validate_iff ["50"] "+994501234567" (by decide)⟩

/-- C3: `verify_otp` returns false whenever the phone has no live cache
entry — the key reads back as absent, the key was deleted, or the
300-second TTL of the `cache_otp` write has elapsed. -/
theorem claim_C3_no_live_entry (H : String → String) (c c0 : Cache) (now t0 t : Nat)
    (phone code codePrior : String) :
    (cacheGet c ("otp:" ++ phone) now = none → verify_otp H c now phone code = false) ∧
    verify_otp H (cacheDelete c ("otp:" ++ phone)) now phone code = false ∧
    (t0 + 300 ≤ t → verify_otp H (cache_otp H c0 t0 phone codePrior) t phone code = false) := by
  refine ⟨?_, ?_, ?_⟩
  · intro h
    unfold verify_otp
    rw [h]
  · unfold verify_otp
    rw [cacheGet_delete_self]
  · intro ht
    unfold verify_otp cache_otp
    rw [cacheGet_set_self, if_neg (by omega)]

/-- C3, witness: never requested, deleted, and expired, each at a
concrete state. -/
theorem claim_C3_witness :
    verify_otp (fun s => s) emptyCache 0 "+994501234567" "1234" = false ∧
    verify_otp (fun s => s) (cacheDelete emptyCache ("otp:" ++ "+994501234567")) 0 "+994501234567" "1234" = false ∧
    verify_otp (fun s => s) (cache_otp (fun s => s) emptyCache 0 "+994501234567" "9999") 300 "+994501234567" "1234" = false :=
  ⟨(claim_C3_no_live_entry (fun s => s) emptyCache emptyCache 0 0 300 "+994501234567" "1234" "9999").1 rfl,
   (claim_C3_no_live_entry (fun s => s) emptyCache emptyCache 0 0 300 "+994501234567" "1234" "9999").2.1,
   (claim_C3_no_live_entry (fun s => s) emptyCache emptyCache 0 0 300 "+994501234567" "1234" "9999").2.2 (by decide)⟩

/-- C5: within the TTL, `put` then `verify` with the same code succeeds;
after the caller's `delete`, the same `verify` fails — the code is
single-use once the delete step runs. -/
theorem claim_C5_single_use (H : String → String) (c : Cache) (now t1 : Nat)
    (phone code : String) (hne : H code ≠ "") (ht1 : t1 < now + 300) :
    verify_otp H (cache_otp H c now phone code) t1 phone code = true ∧
    ∀ t2, verify_otp H (cacheDelete (cache_otp H c now phone code) ("otp:" ++ phone)) t2 phone code = false := by
  constructor
  · simp [verify_otp, cache_otp, cacheGet_set_self, ht1, hne]
  · intro t2
    unfold verify_otp
    rw [cacheGet_delete_self]

/-- C5, witness: concrete put/verify/delete/verify run with the
identity digest. -/
theorem claim_C5_witness :
    verify_otp (fun s => s) (cache_otp (fun s => s) emptyCache 0 "+994501234567" "1234") 1 "+994501234567" "1234" = true ∧
    verify_otp (fun s => s) (cacheDelete (cache_otp (fun s => s) emptyCache 0 "+994501234567" "1234") ("otp:" ++ "+994501234567")) 2 "+994501234567" "1234" = false :=
  ⟨(claim_C5_single_use (fun s => s) emptyCache 0 1 "+994501234567" "1234" (by decide) (by decide)).1,
   (claim_C5_single_use (fun s => s) emptyCache 0 1 "+994501234567" "1234" (by decide) (by decide)).2 2⟩

/-- C8: `cache_otp` overwrites unconditionally, so after two puts for
the same phone only the most recent code verifies (assuming the digest
is injective and never empty on the stored code). -/
theorem claim_C8_last_writer_wins (H : String → String) (c : Cache) (now1 now2 t : Nat)
    (phone code1 code2 : String) (hinj : Function.Injective H) (hcc : code1 ≠ code2)
    (h2 : H code2 ≠ "") (ht : t < now2 + 300) :
    verify_otp H (cache_otp H (cache_otp H c now1 phone code1) now2 phone code2) t phone code2 = true ∧
    verify_otp H (cache_otp H (cache_otp H c now1 phone code1) now2 phone code2) t phone code1 = false := by
  constructor
  · simp [verify_otp, cache_otp, cacheGet_set_self, ht, h2]
  · simp only [verify_otp, cache_otp, cacheGet_set_self, if_pos ht, if_neg h2]
    rw [beq_eq_false_iff_ne]
    exact fun h => hcc (hinj h)

/-- C8, witness: two puts for the same phone with distinct codes under
the (injective) identity digest. -/
theorem claim_C8_witness :
    verify_otp (fun s => s) (cache_otp (fun s => s) (cache_otp (fun s => s) emptyCache 0 "+994501234567" "1111") 0 "+994501234567" "2222") 1 "+994501234567" "2222" = true ∧
    verify_otp (fun s => s) (cache_otp (fun s => s) (cache_otp (fun s => s) emptyCache 0 "+994501234567" "1111") 0 "+994501234567" "2222") 1 "+994501234567" "1111" = false :=
  claim_C8_last_writer_wins (fun s => s) emptyCache 0 0 1 "+994501234567" "1111" "2222"
    (fun _ _ h => h) (by decide) (by decide) (by decide)

/-- C1, amended: a request with no phone field makes the view raise
`TypeError` (no 400 response); a phone that normalizes to the empty
string gets 400 with the cache untouched; and the view never validates
the operator prefix — a normalized nonempty phone with no matching user
gets 404, still with the cache untouched. -/
theorem claim_C1_login_rejections (users : UserDb) (H : String → String) (c : Cache)
    (now : Nat) (raw otp : String) :
    (loginPost users H c now none otp).isOk = false ∧
    (format_phone_number raw = "" →
      loginPost users H c now (some raw) otp =
        .ok (.s400, .errorMsg "Phone number is required", c)) ∧
    ((findUser users (format_phone_number raw)).isSome = false →
      format_phone_number raw ≠ "" →
      loginPost users H c now (some raw) otp =
        .ok (.s404, .errorMsg "User with this phone number does not exist", c)) := by
  refine ⟨rfl, ?_, ?_⟩
  · intro h
    simp only [loginPost]
    rw [if_pos h]
  · intro hfind hph
    simp only [loginPost]
    rw [if_neg hph, if_pos hfind]

/-- C1, counterexample: the spec's own invalid-operator example `00`.
`verify_phone_number` rejects `"0001234567"`, yet `login-otp` for it
returns 404 (no user with that canonical phone), not the claimed 400. -/
theorem claim_C1_counterexample :
    verify_phone_number PHONE_NUMBER_PREFIXES "0001234567" = .error "Not a valid operator." ∧
    loginPost [] (fun s => s) emptyCache 0 (some "0001234567") "1234" =
      .ok (.s404, .errorMsg "User with this phone number does not exist", emptyCache) :=
  ⟨rfl, rfl⟩

/-- C1, witness: the amended theorem applied to a missing phone, a
digit-free phone, and an invalid-prefix phone with no matching user. -/
theorem claim_C1_witness :
    (loginPost [] (fun s => s) emptyCache 0 none "1234").isOk = false ∧
    loginPost [] (fun s => s) emptyCache 0 (some "abc") "1234" =
      .ok (.s400, .errorMsg "Phone number is required", emptyCache) ∧
    loginPost [] (fun s => s) emptyCache 0 (some "0001234567") "1234" =
      .ok (.s404, .errorMsg "User with this phone number does not exist", emptyCache) :=
  ⟨(claim_C1_login_rejections [] (fun s => s) emptyCache 0 "abc" "1234").1,
   (claim_C1_login_rejections [] (fun s => s) emptyCache 0 "abc" "1234").2.1 (by decide),
   (claim_C1_login_rejections [] (fun s => s) emptyCache 0 "0001234567" "1234").2.2 (by decide) (by decide)⟩

/-- C9, amended: every successful login-otp run answers 200 with the
body message exactly as the code spells it ("OTP sent succesfully"),
whatever OTP was generated — so the response is identical across runs
and never contains the OTP. -/
theorem claim_C9_login_response_constant (users : UserDb) (H : String → String) (c : Cache)
    (now : Nat) (raw otp1 otp2 : String)
    (hph : format_phone_number raw ≠ "")
    (hu : (findUser users (format_phone_number raw)).isSome = true) :
    ∃ c1 c2,
      loginPost users H c now (some raw) otp1 = .ok (.s200, .message "OTP sent succesfully", c1) ∧
      loginPost users H c now (some raw) otp2 = .ok (.s200, .message "OTP sent succesfully", c2) := by
  refine ⟨cache_otp H c now (format_phone_number raw) otp1,
          cache_otp H c now (format_phone_number raw) otp2, ?_, ?_⟩
  · simp only [loginPost]
    rw [if_neg hph, if_neg (by simp [hu])]
  · simp only [loginPost]
    rw [if_neg hph, if_neg (by simp [hu])]

/-- C9, counterexample: the success body's message is the code's
misspelled "OTP sent succesfully", not the claimed exact string
"OTP sent successfully". -/
theorem claim_C9_counterexample :
    loginPost [⟨1, "+994501234567", false⟩] (fun s => s) emptyCache 0 (some "0501234567") "9999" =
      .ok (.s200, .message "OTP sent succesfully",
        cache_otp (fun s => s) emptyCache 0 "+994501234567" "9999") ∧
    "OTP sent succesfully" ≠ "OTP sent successfully" :=
  ⟨rfl, by decide⟩

/-- C9, witness: two successful runs that differ only in the generated
OTP produce the same status and body. -/
theorem claim_C9_witness :
    ∃ c1 c2,
      loginPost [⟨1, "+994501234567", false⟩] (fun s => s) emptyCache 0 (some "0501234567") "1111" =
        .ok (.s200, .message "OTP sent succesfully", c1) ∧
      loginPost [⟨1, "+994501234567", false⟩] (fun s => s) emptyCache 0 (some "0501234567") "2222" =
        .ok (.s200, .message "OTP sent succesfully", c2) :=
  claim_C9_login_response_constant [⟨1, "+994501234567", false⟩] (fun s => s) emptyCache 0
    "0501234567" "1111" "2222" (by decide) (by decide)

/-- C10: when OTP verification succeeds but no user row matches, the
view has already deleted the cache entry before answering 404, so a
retry with the same still-valid code fails. -/
theorem claim_C10_defensive_404_consumes_otp (users : UserDb) (H : String → String)
    (issue : Nat → String × String) (c : Cache) (now t2 : Nat) (raw otpv : String)
    (hph : format_phone_number raw ≠ "") (hotp : otpv ≠ "")
    (hok : verify_otp H c now (format_phone_number raw) otpv = true)
    (hnouser : findUser users (format_phone_number raw) = none) :
    verifyPost users H issue c now (some raw) (some otpv) =
      .ok (.s404, .errorMsg "User not found",
        cacheDelete c ("otp:" ++ format_phone_number raw), users) ∧
    verify_otp H (cacheDelete c ("otp:" ++ format_phone_number raw)) t2 (format_phone_number raw) otpv = false := by
  constructor
  · simp only [verifyPost, Option.getD_some]
    rw [if_neg (by simp [hph, hotp]), if_neg (by simp [hok]), hnouser]
  · unfold verify_otp
    rw [cacheGet_delete_self]

/-- C10, witness: a live OTP for a phone absent from the user table. -/
theorem claim_C10_witness :
    verifyPost [] (fun s => s) (fun _ => ("a", "r"))
        (cache_otp (fun s => s) emptyCache 0 "+994501234567" "1234") 1
        (some "0501234567") (some "1234") =
      .ok (.s404, .errorMsg "User not found",
        cacheDelete (cache_otp (fun s => s) emptyCache 0 "+994501234567" "1234")
          ("otp:" ++ "+994501234567"), []) ∧
    verify_otp (fun s => s)
        (cacheDelete (cache_otp (fun s => s) emptyCache 0 "+994501234567" "1234")
          ("otp:" ++ "+994501234567")) 2 "+994501234567" "1234" = false :=
  claim_C10_defensive_404_consumes_otp [] (fun s => s) (fun _ => ("a", "r"))
    (cache_otp (fun s => s) emptyCache 0 "+994501234567" "1234") 1 2 "0501234567" "1234"
    (by decide) (by decide) rfl rfl

/-- C4: a wrong-code verify-otp request returns 400 with both the cache
and the user table unchanged (the view only deletes after a successful
`verify_otp`), so a still-live entry verifies a correct retry. -/
theorem claim_C4_failed_attempt_preserves_entry (users : UserDb) (H : String → String)
    (issue : Nat → String × String) (c : Cache) (now t2 : Nat) (raw wrong code : String)
    (hph : format_phone_number raw ≠ "") (hw : wrong ≠ "")
    (hfail : verify_otp H c now (format_phone_number raw) wrong = false)
    (hlive : cacheGet c ("otp:" ++ format_phone_number raw) t2 = some (H code))
    (hne : H code ≠ "") :
    verifyPost users H issue c now (some raw) (some wrong) =
      .ok (.s400, .errorMsg "Invalid or expired OTP", c, users) ∧
    verify_otp H c t2 (format_phone_number raw) code = true := by
  constructor
  · simp only [verifyPost, Option.getD_some]
    rw [if_neg (by simp [hph, hw]), if_pos hfail]
  · simp [verify_otp, hlive, hne]

/-- C4, witness: wrong code "9999" against stored code "1234"; the
response is 400, the state is returned unchanged, and the correct code
still verifies. -/
theorem claim_C4_witness :
    verifyPost [] (fun s => s) (fun _ => ("a", "r"))
        (cache_otp (fun s => s) emptyCache 0 "+994501234567" "1234") 1
        (some "0501234567") (some "9999") =
      .ok (.s400, .errorMsg "Invalid or expired OTP",
        cache_otp (fun s => s) emptyCache 0 "+994501234567" "1234", []) ∧
    verify_otp (fun s => s) (cache_otp (fun s => s) emptyCache 0 "+994501234567" "1234") 2
      "+994501234567" "1234" = true :=
  claim_C4_failed_attempt_preserves_entry [] (fun s => s) (fun _ => ("a", "r"))
    (cache_otp (fun s => s) emptyCache 0 "+994501234567" "1234") 1 2 "0501234567" "9999" "1234"
    (by decide) (by decide) rfl rfl (by decide)

/-- With pairwise-distinct primary keys, two members of the table with
the same pk are the same row. -/
theorem pk_unique {l : List User} (hp : l.Pairwise fun a b => a.pk ≠ b.pk)
    {u v : User} (hu : u ∈ l) (hv : v ∈ l) (h : v.pk = u.pk) : v = u := by
  induction l with
  | nil => cases hu
  | cons x xs ih =>
    obtain ⟨hx, hxs⟩ := List.pairwise_cons.mp hp
    rcases List.mem_cons.mp hu with hu1 | hu2
    · rcases List.mem_cons.mp hv with hv1 | hv2
      · rw [hv1, hu1]
      · exact absurd (hu1 ▸ h).symm (hx v hv2)
    · rcases List.mem_cons.mp hv with hv1 | hv2
      · exact absurd (hv1 ▸ h) (hx u hu2)
      · exact ih hxs hu2 hv2

/-- A list is pointwise related to its image under `f` when every
member is related to its own image. -/
theorem forall2_map_self {R : User → User → Prop} (f : User → User) (l : List User)
    (h : ∀ v ∈ l, R v (f v)) : List.Forall₂ R l (l.map f) := by
  induction l with
  | nil => exact List.Forall₂.nil
  | cons x xs ih =>
    exact List.Forall₂.cons (h x (List.mem_cons_self x xs))
      (ih fun v hv => h v (List.mem_cons_of_mem x hv))

/-- A list is pointwise related to itself when the relation is
reflexive on its members. -/
theorem forall2_self {R : User → User → Prop} (l : List User)
    (h : ∀ v ∈ l, R v v) : List.Forall₂ R l l := by
  induction l with
  | nil => exact List.Forall₂.nil
  | cons x xs ih =>
    exact List.Forall₂.cons (h x (List.mem_cons_self x xs))
      (ih fun v hv => h v (List.mem_cons_of_mem x hv))

/-- C7: in every verify-otp run that returns a response, the user table
is unchanged unless the response is 200 (the flag write happens only
after OTP verification succeeds); on 200 each row is either untouched
or has `phone_verified` flipped false-to-true; on 200 a matched
already-verified user leaves the table unchanged; and a run whose
request fields are well-formed, whose OTP verifies, and whose matched
user is already verified actually answers 200 with the table unchanged
— repeating the flow is a no-op, not an error. -/
theorem claim_C7_verified_flag_discipline (users : UserDb) (H : String → String)
    (issue : Nat → String × String) (c : Cache) (now : Nat) (pf otpf : Option String)
    (st : HttpStatus) (body : Body) (c2 : Cache) (users2 : UserDb)
    (hpk : users.Pairwise fun a b => a.pk ≠ b.pk)
    (hrun : verifyPost users H issue c now pf otpf = .ok (st, body, c2, users2)) :
    (st ≠ .s200 → users2 = users) ∧
    (st = .s200 → List.Forall₂
      (fun v w => w = v ∨ (v.phone_verified = false ∧ w = { v with phone_verified := true }))
      users users2) ∧
    (st = .s200 → ∀ raw u, pf = some raw →
      findUser users (format_phone_number raw) = some u → u.phone_verified = true →
      users2 = users) ∧
    (∀ raw u, pf = some raw →
      format_phone_number raw ≠ "" → otpf ≠ none → otpf ≠ some "" →
      verify_otp H c now (format_phone_number raw) (otpf.getD "") = true →
      findUser users (format_phone_number raw) = some u → u.phone_verified = true →
      st = .s200 ∧ users2 = users) := by
  cases pf with
  | none => simp [verifyPost] at hrun
  | some raw0 =>
    simp only [verifyPost, Option.getD_some] at hrun
    by_cases h1 : format_phone_number raw0 = "" ∨ otpf = none ∨ otpf = some ""
    · rw [if_pos h1] at hrun
      injection hrun with h
      injection h with hst h
      injection h with hbody h
      injection h with hc2 hus
      refine ⟨fun _ => hus.symm, fun h200 => absurd (hst.trans h200) (by decide),
        fun h200 => absurd (hst.trans h200) (by decide), ?_⟩
      intro raw u hpf hph hotp1 hotp2 hverify hfind hflag
      injection hpf with hraw
      rcases h1 with h | h | h
      · exact absurd (hraw ▸ h) hph
      · exact absurd h hotp1
      · exact absurd h hotp2
    · rw [if_neg h1] at hrun
      by_cases h2 : verify_otp H c now (format_phone_number raw0) (otpf.getD "") = false
      · rw [if_pos h2] at hrun
        injection hrun with h
        injection h with hst h
        injection h with hbody h
        injection h with hc2 hus
        refine ⟨fun _ => hus.symm, fun h200 => absurd (hst.trans h200) (by decide),
          fun h200 => absurd (hst.trans h200) (by decide), ?_⟩
        intro raw u hpf hph hotp1 hotp2 hverify hfind hflag
        injection hpf with hraw
        have h2b : verify_otp H c now (format_phone_number raw) (otpf.getD "") = false :=
          hraw ▸ h2
        rw [hverify] at h2b
        exact absurd h2b (by decide)
      · rw [if_neg h2] at hrun
        cases hfind0 : findUser users (format_phone_number raw0) with
        | none =>
          rw [hfind0] at hrun
          injection hrun with h
          injection h with hst h
          injection h with hbody h
          injection h with hc2 hus
          refine ⟨fun _ => hus.symm, fun h200 => absurd (hst.trans h200) (by decide),
            fun h200 => absurd (hst.trans h200) (by decide), ?_⟩
          intro raw u hpf hph hotp1 hotp2 hverify hfind hflag
          injection hpf with hraw
          have hfind0b : findUser users (format_phone_number raw) = none := hraw ▸ hfind0
          rw [hfind0b] at hfind
          exact Option.noConfusion hfind
        | some user =>
          rw [hfind0] at hrun
          injection hrun with h
          injection h with hst h
          injection h with hbody h
          injection h with hc2 hus
          have hmem : user ∈ users := List.mem_of_find?_eq_some hfind0
          refine ⟨fun hne => absurd hst.symm hne, ?_, ?_, ?_⟩
          · intro _
            rw [← hus]
            by_cases hv : user.phone_verified = true
            · rw [if_pos hv]
              exact forall2_self users fun v _ => Or.inl rfl
            · rw [if_neg hv]
              have hv2 : user.phone_verified = false := by simpa using hv
              unfold saveUser
              apply forall2_map_self
              intro v hvmem
              by_cases hpkeq : v.pk = user.pk
              · have hvu : v = user := pk_unique hpk hmem hvmem hpkeq
                right
                refine ⟨hvu ▸ hv2, ?_⟩
                rw [if_pos hpkeq, hvu]
              · left
                rw [if_neg hpkeq]
          · intro _ raw2 u2 hpf hfind2 hflag
            injection hpf with hraw
            rw [← hraw] at hfind2
            rw [hfind0] at hfind2
            injection hfind2 with hu2
            rw [← hus, if_pos (hu2 ▸ hflag)]
          · intro raw u hpf hph hotp1 hotp2 hverify hfind hflag
            injection hpf with hraw
            have hfindb : findUser users (format_phone_number raw) = some user :=
              hraw ▸ hfind0
            rw [hfindb] at hfind
            injection hfind with huu
            refine ⟨hst.symm, ?_⟩
            rw [← hus, if_pos (huu ▸ hflag)]

/-- C7, witness: a successful verify-otp run that flips
`phone_verified` from false to true on the single matching row, and a
repeat run against the already-verified row that answers 200 with the
table unchanged. -/
theorem claim_C7_witness :
    ((HttpStatus.s200 ≠ HttpStatus.s200 →
        ([⟨1, "+994501234567", true⟩] : UserDb) = [⟨1, "+994501234567", false⟩]) ∧
     (HttpStatus.s200 = HttpStatus.s200 → List.Forall₂
        (fun v w => w = v ∨ (v.phone_verified = false ∧ w = { v with phone_verified := true }))
        ([⟨1, "+994501234567", false⟩] : List User) ([⟨1, "+994501234567", true⟩] : List User)) ∧
     (HttpStatus.s200 = HttpStatus.s200 → ∀ raw u,
        (some "0501234567" : Option String) = some raw →
        findUser [⟨1, "+994501234567", false⟩] (format_phone_number raw) = some u →
        u.phone_verified = true →
        ([⟨1, "+994501234567", true⟩] : UserDb) = [⟨1, "+994501234567", false⟩]) ∧
     (∀ raw u, (some "0501234567" : Option String) = some raw →
        format_phone_number raw ≠ "" → (some "1234" : Option String) ≠ none →
        (some "1234" : Option String) ≠ some "" →
        verify_otp (fun s => s) (cache_otp (fun s => s) emptyCache 0 "+994501234567" "1234") 1
          (format_phone_number raw) ((some "1234" : Option String).getD "") = true →
        findUser [⟨1, "+994501234567", false⟩] (format_phone_number raw) = some u →
        u.phone_verified = true →
        HttpStatus.s200 = HttpStatus.s200 ∧
          ([⟨1, "+994501234567", true⟩] : UserDb) = [⟨1, "+994501234567", false⟩])) ∧
    (HttpStatus.s200 = HttpStatus.s200 ∧
      ([⟨1, "+994501234567", true⟩] : UserDb) = [⟨1, "+994501234567", true⟩]) :=
  ⟨claim_C7_verified_flag_discipline [⟨1, "+994501234567", false⟩] (fun s => s)
      (fun _ => ("a", "r"))
      (cache_otp (fun s => s) emptyCache 0 "+994501234567" "1234") 1
      (some "0501234567") (some "1234")
      .s200 (.loginOk "Logged in succesfully" 1 "a" "r")
      (cacheDelete (cache_otp (fun s => s) emptyCache 0 "+994501234567" "1234")
        ("otp:" ++ "+994501234567"))
      [⟨1, "+994501234567", true⟩] (by simp) rfl,
   (claim_C7_verified_flag_discipline [⟨1, "+994501234567", true⟩] (fun s => s)
      (fun _ => ("a", "r"))
      (cache_otp (fun s => s) emptyCache 0 "+994501234567" "1234") 1
      (some "0501234567") (some "1234")
      .s200 (.loginOk "Logged in succesfully" 1 "a" "r")
      (cacheDelete (cache_otp (fun s => s) emptyCache 0 "+994501234567" "1234")
        ("otp:" ++ "+994501234567"))
      [⟨1, "+994501234567", true⟩] (by simp) rfl).2.2.2 "0501234567"
      ⟨1, "+994501234567", true⟩ rfl (by decide) (by decide) (by decide) rfl rfl rfl⟩
